import Mathlib

/-!
Shallow embedding of the theckman/go-i2c driver (Go package `i2c`).

The component under verification is the `Device` handle implemented in
`i2ch_cgo.go`: an open binding to one I²C peripheral with raw `Write`/`Read`
primitives, SMBus-style register helpers, `Close`, and an injectable `debugf`
hook.

Modelling conventions:
* Go byte slices are `List Nat` (each entry a byte value; byte-ness is carried
  as a hypothesis or established arithmetically where it matters).
* `uint16` arithmetic is `Nat` arithmetic with an explicit `% 65536`;
  `int16` arithmetic is `Int` arithmetic wrapped by `wrap16` (two's
  complement); Go's arithmetic right shift on `int16` is `Int.fdiv _ 256`.
* The OS file descriptor and the peripheral behind it are an oracle
  `OSModel σ`: `write` consumes a frame and yields (new state, count,
  optional errno); `read` yields (new state, bytes filled, optional errno).
* Each operation returns an `Out`: the Go return value, the peripheral state
  after the call, and the ordered list of observable `Event`s it performed —
  OS write/read calls and `debugf` invocations (the hook is modelled by its
  `Event.debug` trace entry, with the format arguments captured in `DbgMsg`).
-/

namespace I2c

/-- Errors produced by the driver, mirroring the error values created in the
Go source: `tooLarge limit n` renders `maximum message length <limit>, was
<n>`, `empty` renders `minimum message length 1`, and `transfer code` is an
error propagated from the OS-level read/write call. -/
inductive Err where
  | tooLarge (limit : Nat) (n : Nat)
  | empty
  | transfer (code : Nat)
deriving DecidableEq, Repr

/-- Argument bundles of the `debugf` hook invocations in the source, one
constructor per distinct format string reached by the operations modelled
here. -/
inductive DbgMsg where
  | writeBytes (n : Nat) (payload : List Nat)
  | readBytes (n : Nat) (payload : List Nat)
  | readU16 (w : Nat) (reg : Nat)
  | readS16 (w : Int) (reg : Nat)
  | writeU16 (v : Nat) (reg : Nat)
deriving DecidableEq, Repr

/-- Observable events of one operation, in execution order: OS-level write and
read calls on the device file, and invocations of the `debugf` hook. -/
inductive Event where
  | osWrite (frame : List Nat)
  | osRead (n : Nat)
  | debug (m : DbgMsg)
deriving DecidableEq, Repr

/-- Behaviour oracle for the OS file descriptor / peripheral.
`write s frame = (s', count, errno?)` models `rc.Write`;
`read s n = (s', bytes, errno?)` models `rc.Read` into a buffer of length
`n`, `bytes` being what the OS placed there. -/
structure OSModel (σ : Type) where
  write : σ → List Nat → σ × Nat × Option Nat
  read : σ → Nat → σ × List Nat × Option Nat

/-- Result of running one operation: the Go return value, the peripheral
state afterwards, and the events performed, in order. -/
structure Out (α σ : Type) where
  val : α
  st : σ
  ev : List Event

variable {σ : Type}

/-- `Device.Write` (i2ch_cgo.go): rejects `len(p) > 512` and `len(p) == 0`
before any OS call, otherwise invokes `debugf` and then delegates to the OS
write, returning its count and error. -/
def Write (os : OSModel σ) (s : σ) (p : List Nat) : Out (Nat × Option Err) σ :=
  let n := p.length
  if n > 512 then ⟨(0, some (.tooLarge 512 n)), s, []⟩
  else if n = 0 then ⟨(0, some .empty), s, []⟩
  else
    match os.write s p with
    | (s', cnt, none) => ⟨(cnt, none), s', [.debug (.writeBytes n p), .osWrite p]⟩
    | (s', cnt, some c) => ⟨(cnt, some (.transfer c)), s', [.debug (.writeBytes n p), .osWrite p]⟩

/-- `Device.WriteByte`: `Write` of the single-byte buffer `[b]`. -/
def WriteByte (os : OSModel σ) (s : σ) (b : Nat) : Out (Nat × Option Err) σ :=
  Write os s [b]

/-- `Device.WriteReg`: rejects `len(p) > 511` and `len(p) == 0`, otherwise
builds the frame `reg :: p`, invokes `debugf`, and delegates to `Write`. -/
def WriteReg (os : OSModel σ) (s : σ) (p : List Nat) (reg : Nat) :
    Out (Nat × Option Err) σ :=
  let n := p.length
  if n > 511 then ⟨(0, some (.tooLarge 511 n)), s, []⟩
  else if n = 0 then ⟨(0, some .empty), s, []⟩
  else
    let buf := reg :: p
    let r := Write os s buf
    ⟨r.val, r.st, .debug (.writeBytes buf.length buf) :: r.ev⟩

/-- `Device.Read`: delegates to the OS read; on error returns the count and
the error with no `debugf` call, on success invokes `debugf` with the bytes
actually read (`p[:n]`). The returned buffer is the filled prefix padded with
the zero bytes `make` put in the unfilled remainder. -/
def Read (os : OSModel σ) (s : σ) (n : Nat) :
    Out (List Nat × Nat × Option Err) σ :=
  match os.read s n with
  | (s', bytes, some c) =>
      let filled := bytes.take n
      ⟨(filled ++ List.replicate (n - filled.length) 0, filled.length,
        some (.transfer c)), s', [.osRead n]⟩
  | (s', bytes, none) =>
      let filled := bytes.take n
      ⟨(filled ++ List.replicate (n - filled.length) 0, filled.length, none),
        s', [.osRead n, .debug (.readBytes filled.length filled)]⟩

/-- `Device.ReadRegU16BE`: writes the register byte, reads a 2-byte buffer,
and composes `uint16(buf[0])<<8 + uint16(buf[1])` (uint16 arithmetic, hence
the `% 65536`); on either phase failing it returns 0 with that error. -/
def ReadRegU16BE (os : OSModel σ) (s : σ) (reg : Nat) : Out (Nat × Option Err) σ :=
  let w1 := WriteByte os s reg
  match w1.val.2 with
  | some e => ⟨(0, some e), w1.st, w1.ev⟩
  | none =>
    let r := Read os w1.st 2
    match r.val.2.2 with
    | some e => ⟨(0, some e), r.st, w1.ev ++ r.ev⟩
    | none =>
      let buf := r.val.1
      let w := (buf.getD 0 0 <<< 8 + buf.getD 1 0) % 65536
      ⟨(w, none), r.st, w1.ev ++ r.ev ++ [.debug (.readU16 w reg)]⟩

/-- Two's-complement wrap of an integer into the `int16` range
`[-32768, 32767]`, modelling Go's wrapping `int16` arithmetic. -/
def wrap16 (z : Int) : Int := (z + 32768) % 65536 - 32768

/-- `Device.ReadRegS16BE`: same two phases as the unsigned variant, composing
`int16(buf[0])<<8 + int16(buf[1])` — the shift and the addition wrap in
`int16` (`wrap16`), so a high byte ≥ 0x80 yields a negative word. -/
def ReadRegS16BE (os : OSModel σ) (s : σ) (reg : Nat) : Out (Int × Option Err) σ :=
  let w1 := WriteByte os s reg
  match w1.val.2 with
  | some e => ⟨(0, some e), w1.st, w1.ev⟩
  | none =>
    let r := Read os w1.st 2
    match r.val.2.2 with
    | some e => ⟨(0, some e), r.st, w1.ev ++ r.ev⟩
    | none =>
      let buf := r.val.1
      let w := wrap16 (wrap16 ((buf.getD 0 0 : Int) * 256) + (buf.getD 1 0 : Int))
      ⟨(w, none), r.st, w1.ev ++ r.ev ++ [.debug (.readS16 w reg)]⟩

/-- `Device.ReadRegS16LE`: calls `ReadRegS16BE` and then evaluates
`w = (w&0xFF)<<8 + w>>8` on `int16`: `&` takes the low byte of the two's
complement bit pattern (`w % 65536 % 256` on the `Int` value), `<<` wraps,
and `>>` on a signed operand is Go's arithmetic shift, i.e. a
floor division by 256 (`Int.fdiv`). -/
def ReadRegS16LE (os : OSModel σ) (s : σ) (reg : Nat) : Out (Int × Option Err) σ :=
  let r := ReadRegS16BE os s reg
  match r.val.2 with
  | some e => ⟨(0, some e), r.st, r.ev⟩
  | none =>
    let w := r.val.1
    let w2 := wrap16 (wrap16 ((w % 65536 % 256) * 256) + Int.fdiv w 256)
    ⟨(w2, none), r.st, r.ev⟩

/-- `Device.WriteRegU16BE`: writes the 3-byte frame
`[reg, byte((value & 0xFF00) >> 8), byte(value & 0xFF)]` in one transfer
(the `% 256` is the `byte(...)` conversion); on success invokes `debugf`. -/
def WriteRegU16BE (os : OSModel σ) (s : σ) (reg v : Nat) : Out (Option Err) σ :=
  let buf := [reg, ((v &&& 0xFF00) >>> 8) % 256, (v &&& 0xFF) % 256]
  let r := Write os s buf
  match r.val.2 with
  | some e => ⟨some e, r.st, r.ev⟩
  | none => ⟨none, r.st, r.ev ++ [.debug (.writeU16 v reg)]⟩

/-- `Device.WriteRegU16LE`: computes `w := (value*0xFF00)>>8 + value<<8`
in `uint16` arithmetic exactly as written in the source (note the
multiplication) and delegates to `WriteRegU16BE reg w`. -/
def WriteRegU16LE (os : OSModel σ) (s : σ) (reg v : Nat) : Out (Option Err) σ :=
  let w := (((v * 0xFF00) % 65536) >>> 8 + (v <<< 8) % 65536) % 65536
  WriteRegU16BE os s reg w

/-- The `Device` handle: peripheral address (`uint8`), bus number (`int`),
and the file descriptor of the open device file. The `debugf` field of the
Go struct is modelled by the `Event.debug` trace entries instead. -/
structure Device where
  addr : Nat
  bus : Int
  fd : Nat
deriving DecidableEq, Repr

/-- `Device.Bus` accessor. -/
def Bus (d : Device) : Int := d.bus

/-- `Device.Addr` accessor. -/
def Addr (d : Device) : Nat := d.addr

/-- `Device.Close`: closes the file handle (outcome supplied by the oracle
argument `closeErr`), then unconditionally zeroes `bus` and `addr`, and
returns the close error. -/
def Close (d : Device) (closeErr : Option Nat) : Device × Option Nat :=
  let err := closeErr
  ({ d with bus := 0, addr := 0 }, err)

/-- OS file-descriptor table used to model `New`: the next descriptor to
hand out and the list of currently open descriptors. -/
structure OSFiles where
  nextFd : Nat
  openFds : List Nat
deriving DecidableEq, Repr

/-- `os.OpenFile` outcome oracle: on success allocates a fresh descriptor and
records it open; on failure leaves the table unchanged. -/
def openFile (os : OSFiles) (ok : Bool) : OSFiles × Option Nat :=
  if ok then ({ nextFd := os.nextFd + 1, openFds := os.nextFd :: os.openFds },
    some os.nextFd)
  else (os, none)

/-- Failure cases of `New`: the `os.OpenFile` error and the `ioctl`
(I2C_SLAVE bind) error. -/
inductive NewErr where
  | openFailed
  | bindFailed
deriving DecidableEq, Repr

/-- `New` (i2ch_cgo.go): opens `/dev/i2c-<bus>`, returning the open error if
that fails; then issues the I2C_SLAVE ioctl, returning its error if that
fails — without closing the file it just opened; on success returns the
populated handle. `openOk`/`bindOk` are the oracle outcomes of the two OS
calls. -/
def New (os : OSFiles) (openOk bindOk : Bool) (bus : Int) (addr : Nat) :
    OSFiles × Except NewErr Device :=
  match openFile os openOk with
  | (os1, none) => (os1, .error .openFailed)
  | (os1, some fd) =>
    if bindOk then (os1, .ok { addr := addr, bus := bus, fd := fd })
    else (os1, .error .bindFailed)

/-- Oracle whose OS calls always succeed: writes report the full count,
reads fill the buffer with zero bytes. -/
def okOS : OSModel Unit :=
  { write := fun s p => (s, p.length, none)
    read := fun s n => (s, List.replicate n 0, none) }

/-- Oracle whose OS calls always fail with errno 5 (EIO). -/
def failOS : OSModel Unit :=
  { write := fun s _p => (s, 0, some 5)
    read := fun s _n => (s, [], some 5) }

/-- Oracle mocking a peripheral that answers every read with the two bytes
`[b0, b1]`; writes succeed. -/
def mock2 (b0 b1 : Nat) : OSModel Unit :=
  { write := fun s p => (s, p.length, none)
    read := fun s _n => (s, [b0, b1], none) }

/-- State of the loopback peripheral: the data bytes that followed the
register byte of the last register write. -/
structure Loopback where
  mem : List Nat
deriving DecidableEq, Repr

/-- Loopback oracle: a frame `[reg, d1, d2, ...]` stores its data bytes, a
bare register-select frame `[reg]` keeps the stored data, and a read echoes
the stored data. -/
def loopOS : OSModel Loopback :=
  { write := fun s frame =>
      match frame with
      | [] => (s, 0, none)
      | [_r] => (s, 1, none)
      | _r :: rest => ({ mem := rest }, frame.length, none)
    read := fun s n => (s, s.mem.take n, none) }

/-! Helper lemmas about the byte-extraction bit operations used by the
16-bit register writers. -/

/-- Masking with `0xFF` takes the low byte. -/
lemma and_ff_eq_mod (v : Nat) : v &&& 0xFF = v % 256 := by
  simpa using Nat.and_pow_two_sub_one_eq_mod v 8

/-- Bit `8 + i` of the mask `0xFF00` is set exactly for `i < 8`. -/
lemma testBit_ff00 (i : Nat) : Nat.testBit 0xFF00 (8 + i) = decide (i < 8) := by
  by_cases hi : i < 8
  · interval_cases i <;> decide
  · have h16 : (0xFF00 : Nat) < 2 ^ (8 + i) := by
      calc (0xFF00 : Nat) < 2 ^ 16 := by norm_num
        _ ≤ 2 ^ (8 + i) := Nat.pow_le_pow_right (by norm_num) (by omega)
    simp [Nat.testBit_lt_two_pow h16, hi]

/-- Masking with `0xFF00` and shifting right by 8 takes the high byte. -/
lemma and_ff00_shr_eq (v : Nat) : (v &&& 0xFF00) >>> 8 = v / 256 % 256 := by
  have hdiv : v / 256 % 256 = v >>> 8 % 2 ^ 8 := by
    rw [Nat.shiftRight_eq_div_pow]; norm_num
  apply Nat.eq_of_testBit_eq
  intro i
  rw [Nat.testBit_shiftRight, Nat.testBit_and, hdiv, Nat.testBit_mod_two_pow,
    Nat.testBit_shiftRight, testBit_ff00]
  cases Nat.testBit v (8 + i) <;> simp

/-- C4: `Close` zeroes the stored bus number and address no matter whether the
underlying file close succeeded, and still returns the close error, so the
`Bus`/`Addr` accessors read zero afterwards. -/
theorem close_resets_bus_addr (d : Device) (e : Option Nat) :
    Bus (Close d e).1 = 0 ∧ Addr (Close d e).1 = 0 ∧ (Close d e).2 = e := by
  simp [Close, Bus, Addr]

/-- C9: when the device file opens successfully but the I2C_SLAVE ioctl
fails, `New` returns the bind error without closing the file it opened: the
freshly allocated descriptor is still listed open in the OS table, and no
handle is returned through which it could be closed. -/
theorem new_bind_failure_leaks_fd (os : OSFiles) (bus : Int) (addr : Nat) :
    (New os true false bus addr).2 = .error .bindFailed
      ∧ os.nextFd ∈ (New os true false bus addr).1.openFds := by
  simp [New, openFile]

/-- C1: at the boundary value `v = 0xFFFF`, `WriteRegU16LE` does not perform
the transfer `WriteRegU16BE(reg, swap v)`: it issues the OS write of the
frame `[reg, 0xFF, 0x01]`, whereas `WriteRegU16BE reg (swap 0xFFFF)` issues
the frame `[reg, 0xFF, 0xFF]` (`swap v = 256 * (v % 256) + v / 256`). The
multiplicative formula `(value*0xFF00)>>8` in the source drops the high byte
instead of extracting it. -/
theorem writeRegU16LE_not_swap_at_ffff :
    (WriteRegU16LE okOS () 0 0xFFFF).ev.contains (Event.osWrite [0, 0xFF, 0x01]) = true
      ∧ (WriteRegU16LE okOS () 0 0xFFFF).ev.contains (Event.osWrite [0, 0xFF, 0xFF]) = false
      ∧ (WriteRegU16BE okOS () 0 (256 * (0xFFFF % 256) + 0xFFFF / 256)).ev.contains
          (Event.osWrite [0, 0xFF, 0xFF]) = true := by decide

/-- C3: on the mocked 2-byte response `[0xFF, 0x00]`, `ReadRegS16LE` returns
`-1`, not the signed value `255` whose high byte is the second byte and whose
low byte is the first: the source's `w>>8` is an arithmetic shift on the
negative big-endian intermediate `-256`, which sign-extends instead of
extracting the high byte. -/
theorem readRegS16LE_wrong_on_negative :
    (ReadRegS16LE (mock2 0xFF 0x00) () 0).val = (-1, none)
      ∧ ((-1 : Int) ≠ 255) := by decide

/-- C2: for `1 ≤ len(p) ≤ 512`, `Write p` either returns `len(p)` with no
error or propagates the OS write failure as a transfer error (given the
`os.File.Write` contract that a nil error implies a full-count write); for
`len(p) = 0` it fails with the empty-payload error and for `len(p) > 512`
with the payload-too-large error reporting the offending length, in both
cases performing no OS call (empty event trace, state unchanged). -/
theorem write_length_contract (os : OSModel σ) (s : σ) (p : List Nat) :
    (1 ≤ p.length → p.length ≤ 512 →
      ((os.write s p).2.2 = none → (os.write s p).2.1 = p.length) →
      (Write os s p).val = (p.length, none)
        ∨ ∃ c, (Write os s p).val.2 = some (Err.transfer c))
    ∧ (p.length = 0 →
      (Write os s p).val = (0, some Err.empty)
        ∧ (Write os s p).ev = [] ∧ (Write os s p).st = s)
    ∧ (512 < p.length →
      (Write os s p).val = (0, some (Err.tooLarge 512 p.length))
        ∧ (Write os s p).ev = [] ∧ (Write os s p).st = s) := by
  refine ⟨?_, ?_, ?_⟩
  · intro h1 h2 hc
    rcases h : os.write s p with ⟨s', cnt, e⟩
    rw [h] at hc
    simp only [Write, h]
    rw [if_neg (by omega), if_neg (by omega)]
    cases e with
    | none =>
      have h3 := hc rfl
      simp only at h3
      exact Or.inl (by simp [h3])
    | some c => exact Or.inr ⟨c, by simp⟩
  · intro h0
    simp only [Write]
    rw [if_neg (by omega), if_pos h0]
    exact ⟨rfl, rfl, rfl⟩
  · intro hbig
    simp only [Write]
    rw [if_pos (by omega)]
    exact ⟨rfl, rfl, rfl⟩

set_option maxRecDepth 4000 in
/-- C2 witness: the three branches at the concrete payloads `[7]`, `[]` and
a 513-byte buffer against the always-succeeding oracle. -/
theorem write_length_contract_witness :
    ((Write okOS () [7]).val = ([7].length, none)
        ∨ ∃ c, (Write okOS () [7]).val.2 = some (Err.transfer c))
      ∧ ((Write okOS () ([] : List Nat)).val = (0, some Err.empty)
        ∧ (Write okOS () ([] : List Nat)).ev = []
        ∧ (Write okOS () ([] : List Nat)).st = ())
      ∧ ((Write okOS () (List.replicate 513 0)).val
            = (0, some (Err.tooLarge 512 (List.replicate 513 0).length))
        ∧ (Write okOS () (List.replicate 513 0)).ev = []
        ∧ (Write okOS () (List.replicate 513 0)).st = ()) :=
  ⟨(write_length_contract okOS () [7]).1 (by decide) (by decide) (by decide),
   (write_length_contract okOS () []).2.1 rfl,
   (write_length_contract okOS () (List.replicate 513 0)).2.2 (by simp)⟩

/-- C5 counterexample: with an OS whose write call fails (errno 5), `Write`
on the one-byte payload `[7]` fails with the transfer error, yet the debug
hook was invoked for that operation — the source calls `debugf` before the
OS write, so a failing OS write is not hook-free, refuting "never on error
paths". -/
theorem write_debug_fires_on_os_failure :
    (Write failOS () [7]).val.2 = some (Err.transfer 5)
      ∧ (Write failOS () [7]).ev.contains
          (Event.debug (DbgMsg.writeBytes 1 [7])) = true := by decide

/-- C5 (amended): `Read` invokes the debug hook only after a successful OS
read — a failing OS read leaves only the bare OS-call event; `Write` invokes
the hook exactly when length validation passes, before the OS write, hence
also when that OS write subsequently fails; validation-error paths invoke no
hook at all. -/
theorem debug_hook_paths (os : OSModel σ) (s : σ) (n : Nat) (p : List Nat) :
    ((os.read s n).2.2 ≠ none → (Read os s n).ev = [Event.osRead n])
    ∧ (1 ≤ p.length → p.length ≤ 512 →
      (Write os s p).ev
        = [Event.debug (DbgMsg.writeBytes p.length p), Event.osWrite p])
    ∧ (p.length = 0 ∨ 512 < p.length → (Write os s p).ev = []) := by
  refine ⟨?_, ?_, ?_⟩
  · intro hne
    rcases h : os.read s n with ⟨s', bytes, e⟩
    rw [h] at hne
    cases e with
    | none => simp at hne
    | some c => simp only [Read, h]
  · intro h1 h2
    rcases h : os.write s p with ⟨s', cnt, e⟩
    simp only [Write, h]
    rw [if_neg (by omega), if_neg (by omega)]
    cases e <;> rfl
  · intro hbad
    simp only [Write]
    rcases hbad with h0 | hbig
    · rw [if_neg (by omega), if_pos h0]
    · rw [if_pos (by omega)]

/-- C5 amended witness: the read error path at `n = 2`, the write path at
payload `[7]` (hook fired before the failing OS write), and the empty
payload, all against the always-failing oracle. -/
theorem debug_hook_paths_witness :
    (Read failOS () 2).ev = [Event.osRead 2]
      ∧ (Write failOS () [7]).ev
          = [Event.debug (DbgMsg.writeBytes 1 [7]), Event.osWrite [7]]
      ∧ (Write failOS () ([] : List Nat)).ev = [] :=
  ⟨(debug_hook_paths failOS () 2 [7]).1 (by decide),
   (debug_hook_paths failOS () 2 [7]).2.1 (by decide) (by decide),
   (debug_hook_paths failOS () 2 []).2.2 (by decide)⟩

/-- Characterization of `Write` on a payload that passes length validation:
it performs the debug call followed by the OS write. -/
lemma Write_valid (os : OSModel σ) (s : σ) (p : List Nat)
    (h1 : 1 ≤ p.length) (h2 : p.length ≤ 512) :
    Write os s p =
      match os.write s p with
      | (s', cnt, none) =>
        ⟨(cnt, none), s', [.debug (.writeBytes p.length p), .osWrite p]⟩
      | (s', cnt, some c) =>
        ⟨(cnt, some (.transfer c)), s',
          [.debug (.writeBytes p.length p), .osWrite p]⟩ := by
  simp only [Write]
  rw [if_neg (by omega), if_neg (by omega)]

/-- C7: `WriteReg p reg` with `1 ≤ len(p) ≤ 511` performs exactly one OS
write, of the contiguous frame `reg :: p` of length `len(p) + 1` (its two
debug calls both report that frame); with `len(p) > 511` it fails with the
payload-too-large error reporting the offending length and with `len(p) = 0`
with the empty-payload error, in both cases with no OS call and unchanged
state. -/
theorem writeReg_frame (os : OSModel σ) (s : σ) (p : List Nat) (reg : Nat) :
    (1 ≤ p.length → p.length ≤ 511 →
      (WriteReg os s p reg).ev =
        [Event.debug (DbgMsg.writeBytes (p.length + 1) (reg :: p)),
         Event.debug (DbgMsg.writeBytes (p.length + 1) (reg :: p)),
         Event.osWrite (reg :: p)])
    ∧ (511 < p.length →
      (WriteReg os s p reg).val = (0, some (Err.tooLarge 511 p.length))
        ∧ (WriteReg os s p reg).ev = [] ∧ (WriteReg os s p reg).st = s)
    ∧ (p.length = 0 →
      (WriteReg os s p reg).val = (0, some Err.empty)
        ∧ (WriteReg os s p reg).ev = [] ∧ (WriteReg os s p reg).st = s) := by
  refine ⟨?_, ?_, ?_⟩
  · intro h1 h2
    rcases h : os.write s (reg :: p) with ⟨s', cnt, e⟩
    simp only [WriteReg]
    rw [if_neg (by omega), if_neg (by omega),
      Write_valid os s (reg :: p) (by simp) (by simp; omega), h]
    cases e <;> simp
  · intro hbig
    simp only [WriteReg]
    rw [if_pos (by omega)]
    exact ⟨rfl, rfl, rfl⟩
  · intro h0
    simp only [WriteReg]
    rw [if_neg (by omega), if_pos h0]
    exact ⟨rfl, rfl, rfl⟩

set_option maxRecDepth 4000 in
/-- C7 witness: the three branches at the concrete register `1` and payloads
`[0x42]`, a 512-byte buffer, and `[]`. -/
theorem writeReg_frame_witness :
    ((WriteReg okOS () [0x42] 1).ev =
      [Event.debug (DbgMsg.writeBytes 2 [1, 0x42]),
       Event.debug (DbgMsg.writeBytes 2 [1, 0x42]),
       Event.osWrite [1, 0x42]])
    ∧ ((WriteReg okOS () (List.replicate 512 7) 1).val
          = (0, some (Err.tooLarge 511 (List.replicate 512 7).length))
        ∧ (WriteReg okOS () (List.replicate 512 7) 1).ev = []
        ∧ (WriteReg okOS () (List.replicate 512 7) 1).st = ())
    ∧ ((WriteReg okOS () ([] : List Nat) 1).val = (0, some Err.empty)
        ∧ (WriteReg okOS () ([] : List Nat) 1).ev = []
        ∧ (WriteReg okOS () ([] : List Nat) 1).st = ()) :=
  ⟨(writeReg_frame okOS () [0x42] 1).1 (by decide) (by decide),
   (writeReg_frame okOS () (List.replicate 512 7) 1).2.1 (by simp),
   (writeReg_frame okOS () [] 1).2.2 rfl⟩

/-- C10: whenever `WriteReg`'s own validation passes (`1 ≤ len(p) ≤ 511`),
the inner `Write` receives the frame `reg :: p` of length `len(p) + 1 ∈
[2, 512]`, so `Write`'s empty-payload and payload-too-large branches never
fire: the OS write is reached and any failure is a transfer error; likewise
`WriteByte` always passes a 1-byte buffer, so the same branches are
unreachable from it (and hence from every register-select write phase). -/
theorem write_validation_unreachable (os : OSModel σ) (s : σ)
    (p : List Nat) (reg b : Nat) :
    (1 ≤ p.length → p.length ≤ 511 →
      Event.osWrite (reg :: p) ∈ (WriteReg os s p reg).ev
        ∧ ((WriteReg os s p reg).val.2 = none
            ∨ ∃ c, (WriteReg os s p reg).val.2 = some (Err.transfer c)))
    ∧ (Event.osWrite [b] ∈ (WriteByte os s b).ev
        ∧ ((WriteByte os s b).val.2 = none
            ∨ ∃ c, (WriteByte os s b).val.2 = some (Err.transfer c))) := by
  constructor
  · intro h1 h2
    rcases h : os.write s (reg :: p) with ⟨s', cnt, e⟩
    simp only [WriteReg]
    rw [if_neg (by omega), if_neg (by omega),
      Write_valid os s (reg :: p) (by simp) (by simp; omega), h]
    cases e <;> simp
  · rcases h : os.write s [b] with ⟨s', cnt, e⟩
    simp only [WriteByte]
    rw [Write_valid os s [b] (by simp) (by simp), h]
    cases e <;> simp

/-- C10 witness: concrete payload `[7]`, register `1` and byte `2` against
the always-succeeding oracle. -/
theorem write_validation_unreachable_witness :
    (Event.osWrite [1, 7] ∈ (WriteReg okOS () [7] 1).ev
        ∧ ((WriteReg okOS () [7] 1).val.2 = none
            ∨ ∃ c, (WriteReg okOS () [7] 1).val.2 = some (Err.transfer c)))
    ∧ (Event.osWrite [2] ∈ (WriteByte okOS () 2).ev
        ∧ ((WriteByte okOS () 2).val.2 = none
            ∨ ∃ c, (WriteByte okOS () 2).val.2 = some (Err.transfer c))) :=
  ⟨(write_validation_unreachable okOS () [7] 1 2).1 (by decide) (by decide),
   (write_validation_unreachable okOS () [7] 1 2).2⟩

/-- Evaluation of `ReadRegU16BE` against the 2-byte mock. -/
lemma readRegU16BE_mock2 (b0 b1 reg : Nat) :
    (ReadRegU16BE (mock2 b0 b1) () reg).val = ((b0 <<< 8 + b1) % 65536, none) := rfl

/-- Evaluation of `ReadRegS16BE` against the 2-byte mock. -/
lemma readRegS16BE_mock2 (b0 b1 reg : Nat) :
    (ReadRegS16BE (mock2 b0 b1) () reg).val
      = (wrap16 (wrap16 ((b0 : Int) * 256) + (b1 : Int)), none) := rfl

/-- C8: for every mocked 2-byte response `[b0, b1]`, `ReadRegS16BE` composes
the same 16-bit pattern `(b0 << 8) | b1 = 256 * b0 + b1` as `ReadRegU16BE`,
returned as its two's-complement signed reading: the signed result is
congruent to the unsigned one modulo 2^16 and lies in `[-32768, 32767]`. -/
theorem read_sign_law (b0 b1 reg : Nat) (h0 : b0 < 256) (h1 : b1 < 256) :
    (ReadRegU16BE (mock2 b0 b1) () reg).val = (256 * b0 + b1, none)
      ∧ (ReadRegS16BE (mock2 b0 b1) () reg).val.2 = none
      ∧ (ReadRegS16BE (mock2 b0 b1) () reg).val.1 % 65536
          = ((256 * b0 + b1 : Nat) : Int)
      ∧ -32768 ≤ (ReadRegS16BE (mock2 b0 b1) () reg).val.1
      ∧ (ReadRegS16BE (mock2 b0 b1) () reg).val.1 < 32768 := by
  have hshl : b0 <<< 8 = b0 * 256 := by rw [Nat.shiftLeft_eq]
  rw [readRegU16BE_mock2, readRegS16BE_mock2]
  refine ⟨?_, rfl, ?_, ?_, ?_⟩
  · rw [hshl]
    have hm : (b0 * 256 + b1) % 65536 = 256 * b0 + b1 := by omega
    rw [hm]
  all_goals (simp only [wrap16]; push_cast; omega)

/-- C8 witness: the spec's own example bytes `[0xFF, 0x00]` give unsigned
`0xFF00 = 65280` and signed `-256`. -/
theorem read_sign_law_witness :
    (ReadRegU16BE (mock2 0xFF 0x00) () 0).val = (256 * 0xFF + 0x00, none)
      ∧ (ReadRegS16BE (mock2 0xFF 0x00) () 0).val.1 = -256 :=
  ⟨(read_sign_law 0xFF 0x00 0 (by decide) (by decide)).1, by decide⟩

/-- C6: against the loopback peripheral that echoes the data bytes of the
last register write, `WriteRegU16BE reg v` succeeds and a following
`ReadRegU16BE reg` returns `v` unchanged, for every register byte and every
`v < 65536`. -/
theorem writeRead_u16be_roundtrip (reg v : Nat) (s : Loopback)
    (_hr : reg < 256) (hv : v < 65536) :
    (WriteRegU16BE loopOS s reg v).val = none
      ∧ (ReadRegU16BE loopOS (WriteRegU16BE loopOS s reg v).st reg).val
          = (v, none) := by
  have hlo : (v &&& 0xFF) % 256 = v % 256 := by rw [and_ff_eq_mod]; omega
  have hhi : ((v &&& 0xFF00) >>> 8) % 256 = v / 256 := by
    rw [and_ff00_shr_eq]; omega
  refine ⟨rfl, ?_⟩
  have hval : (ReadRegU16BE loopOS (WriteRegU16BE loopOS s reg v).st reg).val
      = (((((v &&& 0xFF00) >>> 8) % 256) <<< 8 + (v &&& 0xFF) % 256) % 65536,
        none) := rfl
  rw [hval, hhi, hlo, Nat.shiftLeft_eq]
  norm_num
  omega

/-- C6 witness: register `3`, value `0x1234`, starting from a loopback whose
memory still holds stale bytes. -/
theorem writeRead_u16be_roundtrip_witness :
    (WriteRegU16BE loopOS ⟨[9, 9]⟩ 3 0x1234).val = none
      ∧ (ReadRegU16BE loopOS (WriteRegU16BE loopOS ⟨[9, 9]⟩ 3 0x1234).st 3).val
          = (0x1234, none) :=
  writeRead_u16be_roundtrip 3 0x1234 ⟨[9, 9]⟩ (by decide) (by decide)

end I2c
